import Mathlib

/-!
Verification of the graphiti-lmstudio agent core: a shallow embedding of
`src/graphiti_agent/agent.py` (the retrieval tool `search_graphiti`, the
streaming assembler, and the session loop of `main`) and of the index
lifecycle in `src/graphiti_agent/llm_config.py`, with theorems settling
the specification's claims about them.
-/

namespace GraphitiAgent

/-! ### Retrieval tool: `search_graphiti` (agent.py lines 79-121)

A raw record returned by the fact store's `search` call is duck-typed in
Python.  We model each attribute access as an `Option String`: `none`
covers the cases where in Python the access raises `AttributeError`
(attribute absent) or pydantic validation of the required `str` field
rejects the value (`None` or a non-string); `some s` covers a genuine
string value, including the empty string, which pydantic's plain `str`
field accepts. -/

structure RawRecord where
  uuid : Option String
  fact : Option String
  valid_at : Option String := none
  invalid_at : Option String := none
  source_node_uuid : Option String := none
deriving Repr, DecidableEq

/-- The pydantic result model `GraphitiSearchResult` of agent.py lines 70-76:
`uuid` and `fact` are required strings, the rest optional and `None` by
default. -/
structure GraphitiSearchResult where
  uuid : String
  fact : String
  valid_at : Option String := none
  invalid_at : Option String := none
  source_node_uuid : Option String := none
deriving Repr, DecidableEq

/-- Python truthiness guard `if hasattr(result, a) and result.a:` applied to an
optional string attribute: absent or empty (falsy) yields no value. -/
def truthyOpt (o : Option String) : Option String :=
  match o with
  | some s => if s = "" then none else some s
  | none => none

/-- The body of the `for result in results` loop of agent.py lines 101-114 for
one record: constructing `GraphitiSearchResult(uuid=result.uuid,
fact=result.fact, source_node_uuid=...)` raises if `uuid` or `fact` is
absent or not a string (modelled by `Except.error`); the optional temporal
attributes are added under `hasattr`-and-truthy guards and never raise. -/
def formatRecord (r : RawRecord) : Except String GraphitiSearchResult :=
  match r.uuid with
  | none => .error "AttributeError or ValidationError on uuid"
  | some u =>
    match r.fact with
    | none => .error "AttributeError or ValidationError on fact"
    | some f =>
      .ok { uuid := u, fact := f,
            valid_at := truthyOpt r.valid_at,
            invalid_at := truthyOpt r.invalid_at,
            source_node_uuid := r.source_node_uuid }

/-- The whole formatting loop: Python raises out of the loop at the first bad
record, so the fold is fail-fast. -/
def formatResults : List RawRecord → Except String (List GraphitiSearchResult)
  | [] => .ok []
  | r :: rs =>
    match formatRecord r with
    | .error e => .error e
    | .ok fr =>
      match formatResults rs with
      | .error e => .error e
      | .ok frs => .ok (fr :: frs)

/-- Outcome of the collaborator call `await graphiti.search(query)`:
it either raises (an `Exception`-derived error: connection failure,
timeout, ...) or returns a value, which may be Python `None` or a list of
raw records. -/
inductive SearchOutcome where
  | raises (err : String)
  | returns (results : Option (List RawRecord))
deriving Repr, DecidableEq

/-- The tool `search_graphiti` of agent.py lines 79-121.  Everything —
the `search` call, the `len(results)` logging, and the formatting loop —
sits inside one `try` whose `except Exception` handler returns `[]`.
A `None` response makes `len(results)` raise `TypeError` inside that
`try`, so it also yields `[]`. -/
def search_graphiti (outcome : SearchOutcome) : List GraphitiSearchResult :=
  match outcome with
  | .raises _ => []
  | .returns none => []
  | .returns (some rs) =>
    match formatResults rs with
    | .error _ => []
    | .ok frs => frs

/-! ### Streaming assembler (agent.py lines 196-199)

`curr_message = ""` then `curr_message += message` for each streamed
delta, with `live.update` rendering the buffer after each fragment. -/

/-- One stream iteration: append the fragment to the buffer. -/
def streamStep (buf frag : String) : String := buf ++ frag

/-- The successive values of `curr_message` displayed by `live.update`, one
per received fragment, starting from buffer `buf`. -/
def streamTrace (buf : String) : List String → List String
  | [] => []
  | f :: fs => streamStep buf f :: streamTrace (streamStep buf f) fs

/-- The live-buffer values after each fragment of the stream, with the
initial `curr_message = ""`. -/
def liveBuffers (frags : List String) : List String :=
  streamTrace "" frags

/-- The final value of `curr_message` once the stream is exhausted. -/
def finalAnswer (frags : List String) : String :=
  frags.foldl streamStep ""

/-! ### Conversation session: the `while True` loop of `main`
(agent.py lines 173-223)

The loop reads user input, breaks on an exit token, otherwise runs the
agent turn inside an inner `try` whose `except Exception` prints a
diagnostic and continues.  On success, `messages.extend(result.all_messages())`
appends the backend-reported message trace of the run to history; the
extend happens only after the stream is fully consumed, so any exception
raised before or during streaming leaves `messages` untouched.  A
`KeyboardInterrupt` is not an `Exception` in Python, so it escapes the
inner handler and leaves the loop.  The whole loop sits in a
`try ... finally: await graphiti_client.close()`. -/

/-- One entry of the `messages` list (a pydantic-ai `ModelMessage`); for the
claims only its identity matters, so we keep a role and a content. -/
structure Turn where
  role : String
  content : String
deriving Repr, DecidableEq

/-- What happens inside the inner `try` of one turn:
`success frags trace` — the stream delivered `frags` and
`result.all_messages()` returned `trace`; `failure` — an
`Exception` was raised before the extend (backend unreachable,
mid-stream disconnect), caught by the inner handler;
`interruptMidStream` — a `KeyboardInterrupt` arrived after some
fragments, escaping the inner handler. -/
inductive TurnOutcome where
  | success (frags : List String) (trace : List Turn)
  | failure (err : String)
  | interruptMidStream (frags : List String)
deriving Repr, DecidableEq

/-- One iteration's external stimulus: a line of user input together with
how the turn then unfolds, or a `KeyboardInterrupt` at the input prompt. -/
inductive SessionEvent where
  | input (s : String) (outcome : TurnOutcome)
  | interruptAtPrompt
deriving Repr, DecidableEq

/-- Observable actions of the loop body, in order. -/
inductive Action where
  | promptUser
  | invokeOrchestrator (s : String)
  | printDiagnostic (err : String)
  | closeConnection
deriving Repr, DecidableEq

/-- How the loop region was left. `scriptEnd` means the finite event script
ran out while the real loop would still be awaiting input — the session has
not terminated in that case. -/
inductive TermReason where
  | exitCommand
  | interrupted
  | scriptEnd
deriving Repr, DecidableEq

structure SessionRun where
  trace : List Action
  messages : List Turn
  reason : TermReason
deriving Repr, DecidableEq

/-- Python's `str.lower()`, modelled character by character (the exit
vocabulary is pure ASCII, where the two functions agree). -/
def strLower (s : String) : String := ⟨s.data.map Char.toLower⟩

/-- The exit vocabulary of agent.py line 182:
`if user_input.lower() in ['exit', 'quit', 'bye', 'goodbye']`. -/
def exitTokens : List String := ["exit", "quit", "bye", "goodbye"]

/-- The `while True` body of agent.py lines 176-219, iterated over a finite
script of events.  History `messages` is threaded through; the action trace
records prompts, orchestrator invocations and diagnostics. -/
def sessionLoop (messages : List Turn) : List SessionEvent → SessionRun
  | [] => { trace := [], messages := messages, reason := .scriptEnd }
  | .interruptAtPrompt :: _ =>
    { trace := [.promptUser], messages := messages, reason := .interrupted }
  | .input s outcome :: rest =>
    if exitTokens.contains (strLower s) then
      { trace := [.promptUser], messages := messages, reason := .exitCommand }
    else
      match outcome with
      | .success _ trace =>
        let run := sessionLoop (messages ++ trace) rest
        { run with trace := [.promptUser, .invokeOrchestrator s] ++ run.trace }
      | .failure err =>
        let run := sessionLoop messages rest
        { run with
            trace := [.promptUser, .invokeOrchestrator s, .printDiagnostic err] ++ run.trace }
      | .interruptMidStream _ =>
        { trace := [.promptUser, .invokeOrchestrator s],
          messages := messages, reason := .interrupted }

/-- The `try ... finally` of agent.py lines 175-223: whenever control leaves
the loop region — exit command or escaping interrupt — the `finally`
clause runs `await graphiti_client.close()` once.  When the script merely
ends (`scriptEnd`) the session is still live and nothing runs. -/
def runSession (events : List SessionEvent) : SessionRun :=
  let run := sessionLoop [] events
  match run.reason with
  | .scriptEnd => run
  | _ => { run with trace := run.trace ++ [.closeConnection] }

/-! ### Fact-store index lifecycle at session start

agent.py lines 160-171 (inside `main`, before the loop) and
llm_config.py lines 71-92 (`initialize_graphiti_with_clean_state`). -/

inductive LifecycleCall where
  | buildIndices
  | clearData
deriving Repr, DecidableEq

/-- The fact-store lifecycle calls that COMPLETE during `main`'s startup
(agent.py lines 160-171), in order: `build_indices_and_constraints()`,
then — unconditionally — `clear_data(graphiti_client.driver)`; a raise
from either lands in the `except` which only prints and falls through to
the loop.  No further lifecycle call occurs before user input is read. -/
def mainStartupCalls (buildOk clearOk : Bool) : List LifecycleCall :=
  if buildOk then
    .buildIndices :: (if clearOk then [.clearData] else [])
  else
    []

/-- The lifecycle calls of `initialize_graphiti_with_clean_state`
(llm_config.py lines 71-92) when all calls succeed: build indices; if a
`clear_data_func` is supplied, clear and then rebuild indices.  This
helper is defined in the repository but never called by `main`. -/
def initialize_graphiti_with_clean_state (withClear : Bool) : List LifecycleCall :=
  .buildIndices :: (if withClear then [.clearData, .buildIndices] else [])

/-- Number of `buildIndices` calls occurring strictly after the last
`clearData` in a call sequence; the whole list if no clear occurs. -/
def buildsAfterLastClear (calls : List LifecycleCall) : Nat :=
  ((calls.reverse.takeWhile (· ≠ .clearData)).filter (· = .buildIndices)).length

/-- Whether the normalizer keeps a raw record (formats it into a
`GraphitiSearchResult`) rather than raising. -/
def keptRecord (r : RawRecord) : Bool :=
  (formatRecord r).isOk

/-! ### Helper lemmas -/

theorem formatResults_not_ok_of_bad (rs : List RawRecord)
    (h : ∃ r ∈ rs, r.uuid = none ∨ r.fact = none) :
    (formatResults rs).isOk = false := by
  induction rs with
  | nil => simp at h
  | cons r rest ih =>
    rcases h with ⟨b, hb, hbad⟩
    rcases List.mem_cons.mp hb with rfl | hmem
    · rcases hbad with h1 | h2
      · simp [formatResults, formatRecord, h1, Except.isOk, Except.toBool]
      · cases hu : b.uuid with
        | none => simp [formatResults, formatRecord, hu, Except.isOk, Except.toBool]
        | some u =>
          simp [formatResults, formatRecord, hu, h2, Except.isOk, Except.toBool]
    · have hrest := ih ⟨b, hmem, hbad⟩
      cases hfr : formatRecord r with
      | error e0 => simp [formatResults, hfr, Except.isOk, Except.toBool]
      | ok fr =>
        cases hfs : formatResults rest with
        | error e => simp [formatResults, hfr, hfs, Except.isOk, Except.toBool]
        | ok frs => rw [hfs] at hrest; simp [Except.isOk, Except.toBool] at hrest

theorem String.join_cons (s : String) (l : List String) :
    String.join (s :: l) = s ++ String.join l := by
  apply String.ext
  simp [String.data_join]

theorem streamTrace_getD (frags : List String) :
    ∀ (buf : String) (i : Nat), i < frags.length →
      (streamTrace buf frags).getD i "" = buf ++ String.join (frags.take (i + 1)) := by
  induction frags with
  | nil => intro buf i h; simp at h
  | cons f fs ih =>
    intro buf i h
    cases i with
    | zero =>
      simp [streamTrace, streamStep, String.join_cons]
      cases fs <;> simp [String.join]
    | succ n =>
      have hn : n < fs.length := by simpa using h
      have := ih (buf ++ f) n hn
      simpa [streamTrace, streamStep, List.take, String.join_cons,
        String.append_assoc] using this

/-! ### Claims -/

/-- C1: for every query, if the fact store's `search` call fails in any way
— raises any (`Exception`-derived) error, returns Python `None`, or returns
a malformed response whose formatting raises — the retrieval tool returns
the empty list and, being a total function of the outcome, propagates no
error past the tool boundary. -/
theorem C1_retrieve_absorbs_failures :
    (∀ err, search_graphiti (.raises err) = [])
    ∧ search_graphiti (.returns none) = []
    ∧ (∀ rs err, formatResults rs = .error err →
        search_graphiti (.returns (some rs)) = []) := by
  refine ⟨fun _ => rfl, rfl, fun rs err h => ?_⟩
  simp [search_graphiti, h]

/-- Witness for C1 at concrete failures: a raised connection error, a `None`
response, and a malformed single-record response. -/
theorem C1_retrieve_absorbs_failures_witness :
    search_graphiti (.raises "connection refused") = []
    ∧ search_graphiti (.returns none) = []
    ∧ search_graphiti (.returns (some [{ uuid := none, fact := some "x" }])) = [] :=
  ⟨C1_retrieve_absorbs_failures.1 "connection refused",
   C1_retrieve_absorbs_failures.2.1,
   C1_retrieve_absorbs_failures.2.2 [{ uuid := none, fact := some "x" }]
     "AttributeError or ValidationError on uuid" rfl⟩

/-- C2 counterexample: on the claim's own two-record input
`[{id:"1", statement:"A existed in 2020"}, {id:"", statement:"bad"}]`,
`retrieve` does NOT return exactly one fact — the pydantic `str` field
accepts the empty string, so both records are kept. -/
theorem C2_counterexample_empty_id_kept :
    (search_graphiti (.returns (some
      [{ uuid := some "1", fact := some "A existed in 2020" },
       { uuid := some "", fact := some "bad" }]))).length ≠ 1 := by
  decide

/-- C2 (amended): normalization keeps a record exactly when identifier and
statement are both PRESENT (empty strings included); missing optional
attributes never make `keptRecord` false.  On the claim's two-record input
retrieve returns BOTH facts, in order. -/
theorem C2_normalization_keeps_present_fields :
    (∀ r : RawRecord, keptRecord r = (r.uuid.isSome && r.fact.isSome))
    ∧ search_graphiti (.returns (some
        [{ uuid := some "1", fact := some "A existed in 2020" },
         { uuid := some "", fact := some "bad" }]))
      = [{ uuid := "1", fact := "A existed in 2020" },
         { uuid := "", fact := "bad" }] := by
  constructor
  · intro r
    cases hu : r.uuid <;> cases hf : r.fact <;>
      simp [keptRecord, formatRecord, hu, hf, Except.isOk, Except.toBool]
  · decide

/-- C10: if any record of a successful response lacks its `uuid` or its
`fact`, the exception raised while formatting it is caught by the single
`except` around the whole loop, so `search_graphiti` returns `[]`,
discarding every record of the response, the well-formed ones included. -/
theorem C10_malformed_record_drops_whole_response :
    ∀ rs : List RawRecord, (∃ r ∈ rs, r.uuid = none ∨ r.fact = none) →
      search_graphiti (.returns (some rs)) = [] := by
  intro rs h
  have hno := formatResults_not_ok_of_bad rs h
  cases hfs : formatResults rs with
  | error e => simp [search_graphiti, hfs]
  | ok frs => rw [hfs] at hno; simp [Except.isOk, Except.toBool] at hno

/-- Witness for C10: a response holding one well-formed record and one
record with no `fact` yields the empty list. -/
theorem C10_malformed_record_drops_whole_response_witness :
    search_graphiti (.returns (some
      [{ uuid := some "1", fact := some "good" },
       { uuid := some "2", fact := none }])) = [] :=
  C10_malformed_record_drops_whole_response _
    ⟨{ uuid := some "2", fact := none }, by simp, Or.inr rfl⟩

/-- C6: for every finite in-order fragment stream, the live buffer shown
after the i-th fragment equals the concatenation of the first i + 1
fragments, the final answer equals the concatenation of the whole stream,
and on `["Hel", "lo, ", "world"]` the buffers are
`["Hel", "Hello, ", "Hello, world"]` with final answer `"Hello, world"`. -/
theorem C6_streaming_assembler_concatenates :
    (∀ (frags : List String) (i : Nat), i < frags.length →
        (liveBuffers frags).getD i "" = String.join (frags.take (i + 1)))
    ∧ (∀ frags : List String, finalAnswer frags = String.join frags)
    ∧ liveBuffers ["Hel", "lo, ", "world"] = ["Hel", "Hello, ", "Hello, world"]
    ∧ finalAnswer ["Hel", "lo, ", "world"] = "Hello, world" := by
  refine ⟨fun frags i h => ?_, fun frags => rfl, rfl, rfl⟩
  have := streamTrace_getD frags "" i h
  simpa [liveBuffers] using this

/-- Witness for C6 at the scripted stream, fragment index 1. -/
theorem C6_streaming_assembler_concatenates_witness :
    (1 : Nat) < (["Hel", "lo, ", "world"] : List String).length
    ∧ (liveBuffers ["Hel", "lo, ", "world"]).getD 1 ""
        = String.join (["Hel", "lo, ", "world"].take 2) :=
  ⟨by decide, C6_streaming_assembler_concatenates.1 ["Hel", "lo, ", "world"] 1 (by decide)⟩

/-- C3 counterexample: a successful turn whose backend-reported message
trace (`result.all_messages()`) holds four messages — user prompt, model
tool call, tool return, final model response — grows the history by four
entries, not two. -/
theorem C3_counterexample_toolcall_trace :
    ((sessionLoop [] [.input "what changed in 2024" (.success ["nothing"]
        [{ role := "user", content := "what changed in 2024" },
         { role := "assistant-tool-call", content := "search_graphiti" },
         { role := "tool-return", content := "[]" },
         { role := "assistant", content := "nothing" }])]).messages).length ≠ 2 := by
  decide

/-- C3 (amended): on a successful turn the history grows by exactly the
entries of the backend-returned message trace for that turn, appended in
order (`messages.extend(result.all_messages())`) — two entries only when
that trace is exactly the user and assistant messages — and by exactly
zero entries when the generation-backend call for the turn fails. -/
theorem C3_history_growth :
    ∀ (messages : List Turn) (s : String),
      exitTokens.contains (strLower s) = false →
        (∀ frags trace,
          (sessionLoop messages [.input s (.success frags trace)]).messages
            = messages ++ trace)
        ∧ (∀ err,
          (sessionLoop messages [.input s (.failure err)]).messages = messages) := by
  intro messages s h
  have h2 : strLower s ∉ exitTokens := by simpa using h
  constructor <;> intros <;> simp [sessionLoop, h2]

/-- Witness for C3 (amended) at input "hi", a two-message trace and a
failing turn. -/
theorem C3_history_growth_witness :
    exitTokens.contains (strLower "hi") = false
    ∧ (sessionLoop [] [.input "hi" (.success ["ok"]
        [{ role := "user", content := "hi" },
         { role := "assistant", content := "ok" }])]).messages
      = [{ role := "user", content := "hi" },
         { role := "assistant", content := "ok" }]
    ∧ (sessionLoop [] [.input "hi" (.failure "model unreachable")]).messages = [] :=
  ⟨by decide,
   (C3_history_growth [] "hi" (by decide)).1 ["ok"]
     [{ role := "user", content := "hi" }, { role := "assistant", content := "ok" }],
   (C3_history_growth [] "hi" (by decide)).2 "model unreachable"⟩

/-- C5: a turn aborted mid-stream appends nothing to history: a process
interrupt (`KeyboardInterrupt`, uncaught by the inner handler) leaves the
whole run's history exactly as it was, and a mid-stream backend failure
(caught `Exception`) leaves history unchanged as the loop continues —
regardless of how many fragments were already received. -/
theorem C5_aborted_turn_appends_nothing :
    ∀ (messages : List Turn) (s : String) (frags : List String)
      (rest : List SessionEvent),
      exitTokens.contains (strLower s) = false →
        (sessionLoop messages (.input s (.interruptMidStream frags) :: rest)).messages
          = messages
        ∧ ∀ err,
          (sessionLoop messages (.input s (.failure err) :: rest)).messages
            = (sessionLoop messages rest).messages := by
  intro messages s frags rest h
  have h2 : strLower s ∉ exitTokens := by simpa using h
  constructor
  · simp [sessionLoop, h2]
  · intro err; simp [sessionLoop, h2]

/-- Witness for C5: after receiving only `["Hel"]` the interrupted turn
leaves the empty history empty. -/
theorem C5_aborted_turn_appends_nothing_witness :
    exitTokens.contains (strLower "tell me") = false
    ∧ (sessionLoop [] [.input "tell me" (.interruptMidStream ["Hel"])]).messages = [] :=
  ⟨by decide, (C5_aborted_turn_appends_nothing [] "tell me" ["Hel"] [] (by decide)).1⟩

theorem sessionLoop_no_close (events : List SessionEvent) :
    ∀ messages : List Turn,
      ((sessionLoop messages events).trace).count Action.closeConnection = 0 := by
  induction events with
  | nil => intro messages; rfl
  | cons e rest ih =>
    intro messages
    cases e with
    | interruptAtPrompt => rfl
    | input s outcome =>
      by_cases h : strLower s ∈ exitTokens
      · simp [sessionLoop, h]
      · cases outcome with
        | success frags trace => simp [sessionLoop, h, ih]
        | failure err => simp [sessionLoop, h, ih]
        | interruptMidStream frags => simp [sessionLoop, h]

/-- C7: on every termination path of the session — exit command or an
escaping interrupt, with or without earlier turn-level failures — the
`finally` clause closes the fact-store connection, and since the loop
body itself never closes it, it is closed exactly once. -/
theorem C7_connection_closed_exactly_once :
    ∀ events : List SessionEvent,
      (runSession events).reason ≠ TermReason.scriptEnd →
        ((runSession events).trace).count Action.closeConnection = 1 := by
  intro events h
  have h0 := sessionLoop_no_close events []
  cases hr : (sessionLoop [] events).reason with
  | scriptEnd => exact absurd (by simp [runSession, hr]) h
  | exitCommand => simp [runSession, hr, h0]
  | interrupted => simp [runSession, hr, h0]

/-- Witness for C7 on three concrete termination paths: an exit command,
an interrupt at the prompt, and a failing turn followed by an exit. -/
theorem C7_connection_closed_exactly_once_witness :
    ((runSession [.input "exit" (.failure "")]).trace).count Action.closeConnection = 1
    ∧ ((runSession [.interruptAtPrompt]).trace).count Action.closeConnection = 1
    ∧ ((runSession [.input "hi" (.failure "boom"),
          .input "EXIT" (.failure "")]).trace).count Action.closeConnection = 1 :=
  ⟨C7_connection_closed_exactly_once _ (by decide),
   C7_connection_closed_exactly_once _ (by decide),
   C7_connection_closed_exactly_once _ (by decide)⟩

/-- C8: a turn-level failure prints a diagnostic for that turn and the
loop then processes the remaining events exactly as before — same
resulting history, same termination reason — so no single turn's failure
terminates the session. -/
theorem C8_turn_failure_continues_loop :
    ∀ (messages : List Turn) (s err : String) (rest : List SessionEvent),
      exitTokens.contains (strLower s) = false →
        (sessionLoop messages (.input s (.failure err) :: rest)).trace
            = [Action.promptUser, Action.invokeOrchestrator s,
               Action.printDiagnostic err] ++ (sessionLoop messages rest).trace
        ∧ (sessionLoop messages (.input s (.failure err) :: rest)).reason
            = (sessionLoop messages rest).reason := by
  intro messages s err rest h
  have h2 : strLower s ∉ exitTokens := by simpa using h
  constructor <;> simp [sessionLoop, h2]

/-- Witness for C8: a failing turn followed by a further accepted input
and an exit; the diagnostic is printed and the session still terminates
by the later exit command. -/
theorem C8_turn_failure_continues_loop_witness :
    exitTokens.contains (strLower "hi") = false
    ∧ ((sessionLoop [] [.input "hi" (.failure "boom"),
          .input "bye" (.failure "")]).trace
        = [Action.promptUser, Action.invokeOrchestrator "hi",
           Action.printDiagnostic "boom"]
          ++ (sessionLoop [] [.input "bye" (.failure "")]).trace
      ∧ (sessionLoop [] [.input "hi" (.failure "boom"),
          .input "bye" (.failure "")]).reason
        = (sessionLoop [] [.input "bye" (.failure "")]).reason) :=
  ⟨by decide,
   C8_turn_failure_continues_loop [] "hi" "boom" [.input "bye" (.failure "")] (by decide)⟩

/-- C9: any input whose lowercase form is an exit token makes the loop
break immediately: the run terminates with `exitCommand`, the body's only
action for that iteration is the prompt — the Orchestrator is never
invoked — and the history is untouched, whatever events follow. -/
theorem C9_exit_tokens_terminate_loop :
    ∀ (messages : List Turn) (s : String) (outcome : TurnOutcome)
      (rest : List SessionEvent),
      exitTokens.contains (strLower s) = true →
        sessionLoop messages (.input s outcome :: rest)
          = { trace := [Action.promptUser], messages := messages,
              reason := TermReason.exitCommand } := by
  intro messages s outcome rest h
  have h2 : strLower s ∈ exitTokens := by simpa using h
  simp [sessionLoop, h2]

/-- Witness for C9 at the case-varied inputs "EXIT", "Bye" and "goodbye". -/
theorem C9_exit_tokens_terminate_loop_witness :
    exitTokens.contains (strLower "EXIT") = true
    ∧ exitTokens.contains (strLower "Bye") = true
    ∧ exitTokens.contains (strLower "goodbye") = true
    ∧ sessionLoop [] [.input "EXIT" (.failure "")]
        = { trace := [Action.promptUser], messages := [],
            reason := TermReason.exitCommand }
    ∧ sessionLoop [] [.input "Bye" (.failure "")]
        = { trace := [Action.promptUser], messages := [],
            reason := TermReason.exitCommand }
    ∧ sessionLoop [] [.input "goodbye" (.failure "")]
        = { trace := [Action.promptUser], messages := [],
            reason := TermReason.exitCommand } :=
  ⟨by decide, by decide, by decide,
   C9_exit_tokens_terminate_loop [] "EXIT" (.failure "") [] (by decide),
   C9_exit_tokens_terminate_loop [] "Bye" (.failure "") [] (by decide),
   C9_exit_tokens_terminate_loop [] "goodbye" (.failure "") [] (by decide)⟩

/-- C4: the code contradicts the mandated rebuild-after-clear.  On `main`'s
startup path with both lifecycle calls succeeding, the completed call
sequence is build-then-clear with ZERO further `buildIndices` before input
is accepted, whereas the repository's own helper
`initialize_graphiti_with_clean_state` — defined for exactly this purpose
but never called by `main` — performs build, clear, and exactly one
rebuild. -/
theorem C4_main_startup_misses_rebuild :
    mainStartupCalls true true = [.buildIndices, .clearData]
    ∧ buildsAfterLastClear (mainStartupCalls true true) = 0
    ∧ initialize_graphiti_with_clean_state true
        = [.buildIndices, .clearData, .buildIndices]
    ∧ buildsAfterLastClear (initialize_graphiti_with_clean_state true) = 1 := by
  decide

end GraphitiAgent
